import Mathlib

/-!
Shallow embedding of the mini-app controller (`src/miniapp/app.js`) of the
remnawave-bedolaga-telegram-bot repository, together with theorems settling
the claims about its bootstrap/render pipeline and payment workflow.

JavaScript values that matter to the claims are modelled explicitly:
optional fields as `Option`, JS string falsiness (`''` is falsy) via
dedicated helpers, numbers as `ℚ` (every number reaching `formatAmount`
in this app is an exact integral amount of minor units, for which IEEE-754
division by 100 followed by `toFixed(2)` is exact, so `ℚ` arithmetic agrees
with the runtime).
-/

namespace Miniapp

/-! ## JS value helpers -/

/-- A JavaScript value as far as `formatAmount`'s `typeof` test and the
`balance_kopeks` / `amount_kopeks` fields are concerned. -/
inductive JsVal where
  | num (q : ℚ)
  | str (s : String)
  | boolean (b : Bool)
  | jnull
  | undef
  deriving DecidableEq, Repr

/-- Embeds `typeof v === 'number'`. -/
def JsVal.isNumber : JsVal → Bool
  | .num _ => true
  | _ => false

/-- Embeds the JS idiom `optString || default` (a missing value and the
empty string are both falsy). -/
def jsStrOr (o : Option String) (d : String) : String :=
  match o with
  | some s => if s = "" then d else s
  | none => d

/-- Embeds `x || y` on a possibly-missing string `x`: a falsy `x`
(missing or empty) yields `y` verbatim, even when `y` is itself falsy. -/
def jsOrElse (a : Option String) (b : Option String) : Option String :=
  match a with
  | some s => if s = "" then b else some s
  | none => b

/-- Truthiness of a possibly-missing string. -/
def jsTruthyStr (o : Option String) : Bool :=
  match o with
  | some s => s ≠ ""
  | none => false

/-! ## PlatformDetector (`detectPlatform`, app.js lines 47-56) -/

/-- The closed set of platform tags. -/
inductive Platform where
  | ios
  | android
  | windows
  | mac
  | linux
  | androidTV
  | generic
  deriving DecidableEq, Repr

/-- Lower-cases a string character by character (embeds
`ua.toLowerCase()`; the JS method and this agree on ASCII, and every
pattern `detectPlatform` tests is ASCII). -/
def toLowerAscii (s : String) : String :=
  String.mk (s.data.map Char.toLower)

/-- Does `pat` occur as a contiguous run inside `l`? -/
def hasInfixRun (pat : List Char) : List Char → Bool
  | [] => pat.isEmpty
  | c :: rest => pat.isPrefixOf (c :: rest) || hasInfixRun pat rest

/-- Substring test on strings (embeds `RegExp.test` for the alternation-free
literal patterns used by `detectPlatform`). -/
def containsSub (s pat : String) : Bool :=
  hasInfixRun pat.toList s.toList

/-- Embeds the regex `/iphone|ipad|ipod/.test(ua)`. -/
def matchIos (ua : String) : Bool :=
  containsSub ua "iphone" || containsSub ua "ipad" || containsSub ua "ipod"

/-- Embeds `/android/.test(ua)`. -/
def matchAndroid (ua : String) : Bool := containsSub ua "android"

/-- Embeds `/windows/.test(ua)`. -/
def matchWindows (ua : String) : Bool := containsSub ua "windows"

/-- Embeds `/macintosh|mac os x/.test(ua)`. -/
def matchMac (ua : String) : Bool :=
  containsSub ua "macintosh" || containsSub ua "mac os x"

/-- Embeds `/linux/.test(ua)`. -/
def matchLinux (ua : String) : Bool := containsSub ua "linux"

/-- Embeds `/tv/.test(ua)`. -/
def matchTv (ua : String) : Bool := containsSub ua "tv"

/-- Embeds `detectPlatform()` (app.js lines 47-56), with the user-agent
string passed explicitly instead of read from `navigator.userAgent`. -/
def detectPlatform (userAgent : String) : Platform :=
  let ua := toLowerAscii userAgent
  if matchIos ua then .ios
  else if matchAndroid ua then .android
  else if matchWindows ua then .windows
  else if matchMac ua then .mac
  else if matchLinux ua then .linux
  else if matchTv ua then .androidTV
  else .generic

/-! ## Monetary formatting (`formatAmount`, app.js lines 93-96) -/

/-- Two-digit zero-padded rendering of a residue below 100. -/
def pad2 (n : ℕ) : String :=
  if n < 10 then "0" ++ toString n else toString n

/-- Embeds `q.toFixed(2)`: round to the nearest hundredth (ties upward;
on this app's inputs — integral kopek counts divided by 100 — no tie or
rounding ever occurs, so the IEEE-754/Lean discrepancy is empty). -/
def toFixed2 (q : ℚ) : String :=
  let cents : ℤ := ⌊q * 100 + 1 / 2⌋
  let a := cents.natAbs
  (if cents < 0 then "-" else "") ++ toString (a / 100) ++ "." ++ pad2 (a % 100)

/-- Embeds `formatAmount(kopeks, currency)` (app.js lines 93-96). -/
def formatAmountWith (kopeks : JsVal) (currency : String) : String :=
  match kopeks with
  | .num q => toFixed2 (q / 100) ++ " " ++ currency
  | _ => "—"

/-- Embeds `formatAmount(kopeks)` with the default currency argument `'₽'`. -/
def formatAmount (kopeks : JsVal) : String :=
  formatAmountWith kopeks "₽"

/-! ## I18nResolver (`resolveI18n`, app.js lines 346-351) -/

/-- The shapes a localizable value can take: absent/null, a plain string,
or a mapping from language tag to string (entries in object insertion
order, keys unique). -/
inductive I18nValue where
  | jnull
  | jstr (s : String)
  | jmap (entries : List (String × String))
  deriving DecidableEq, Repr

/-- Embeds JS property lookup `entity[key]` on the mapping shape. -/
def jsLookup (m : List (String × String)) (k : String) : Option String :=
  (m.find? (fun p => p.1 = k)).map Prod.snd

/-- Embeds `resolveI18n(entity)` (app.js lines 346-351), with the active
language passed explicitly instead of derived from the host/browser.
Note `if (!entity) return null` fires on the empty string as well, and
`entity[lang] || entity.en || Object.values(entity)[0]` skips empty-string
entries except in the final position. -/
def resolveI18n (lang : String) (entity : I18nValue) : Option String :=
  match entity with
  | .jnull => none
  | .jstr s => if s = "" then none else some s
  | .jmap m =>
      jsOrElse (jsLookup m lang)
        (jsOrElse (jsLookup m "en") ((m.map Prod.snd).head?))

/-! ## Data model (§3 of the service contract, as consumed by app.js) -/

/-- A connected device entry (`connected_devices` elements). -/
structure Device where
  platform : Option String
  device_model : Option String
  app_version : Option String
  deriving DecidableEq, Repr

/-- A transaction entry (`transactions` elements). -/
structure Transaction where
  description : Option String
  type : Option String
  created_at : Option String
  amount_kopeks : JsVal
  is_completed : Bool
  deriving DecidableEq, Repr

/-- The `user` object of the subscription snapshot. -/
structure UserInfo where
  display_name : Option String
  subscription_status : Option String
  has_active_subscription : Bool
  subscription_missing : Option Bool
  expires_at : Option String
  traffic_limit_label : Option String
  status_label : Option String
  status : Option String
  deriving DecidableEq, Repr

/-- The account snapshot returned by the `/miniapp/subscription` endpoint
(fields flattened at the top level, as app.js reads them). -/
structure Subscription where
  user : Option UserInfo
  balance_kopeks : JsVal
  balance_currency : Option String
  subscription_missing_reason : Option String
  subscription_url : Option String
  happ_link : Option String
  happ_crypto_link : Option String
  links : Option (List String)
  connected_devices : Option (List Device)
  connected_devices_count : Option ℕ
  transactions : Option (List Transaction)
  deriving DecidableEq, Repr

/-- One selectable option of a payment method. -/
structure MethodOption where
  id : String
  title : Option String
  deriving DecidableEq, Repr

/-- A payment method as returned by `/miniapp/payments/methods`. -/
structure PaymentMethod where
  id : String
  name : Option String
  icon : Option String
  requires_amount : Bool
  min_amount_kopeks : Option ℕ
  amount_step_kopeks : Option ℕ
  currency : Option String
  options : Option (List MethodOption)
  deriving DecidableEq, Repr

/-- The body of `/miniapp/payments/methods` responses (`{ methods: ... }`). -/
structure MethodsDoc where
  methods : Option (List PaymentMethod)
  deriving DecidableEq, Repr

/-- The body of `/miniapp/payments/create` responses (`{ payment_url? }`). -/
structure PayResponse where
  payment_url : Option String
  deriving DecidableEq, Repr

/-- The outbound body of a payment-create request (app.js lines 322-327). -/
structure PaymentPayload where
  initData : String
  method : String
  amountRubles : Option ℚ
  option : Option String
  deriving DecidableEq, Repr

/-- Branding block of the static config document. -/
structure Branding where
  name : Option String
  description : Option String
  supportUrl : Option String
  logoUrl : Option String
  deriving DecidableEq, Repr

/-- One guide step of a platform-guide client entry. -/
structure GuideStep where
  description : Option I18nValue
  buttons : Option (List (String × String))
  deriving DecidableEq, Repr

/-- One client entry of `config.platforms[tag]`. -/
structure GuideClient where
  installationStep : Option GuideStep
  addSubscriptionStep : Option GuideStep
  connectAndUseStep : Option GuideStep
  deriving DecidableEq, Repr

/-- The static config (`app-config.json`, under its `config` key). -/
structure Config where
  branding : Option Branding
  platforms : List (String × List GuideClient)
  deriving DecidableEq, Repr

/-- The `{}` fallback config used when parsing fails or the key is absent. -/
def emptyConfig : Config := ⟨none, []⟩

/-- The parsed shape of the whole `app-config.json` document. -/
structure ConfigDoc where
  config : Option Config
  deriving DecidableEq, Repr

/-! ## The rendering surface

One record per mutable DOM slot that the claims observe.  `hidden` flags
mirror the `hidden` attribute of the section cards; item lists mirror the
children appended to the corresponding list containers. -/

structure Ui where
  brandTitle : String
  supportHref : String
  supportCopy : String
  subscriptionTitle : String
  subscriptionMeta : String
  statusBadgeText : String
  badgeDanger : Bool
  badgeSuccess : Bool
  highlights : List (String × String)
  actionsHidden : Bool
  actionItems : List String
  paymentsHidden : Bool
  paymentItems : List String
  devicesHidden : Bool
  deviceItems : List String
  transactionsHidden : Bool
  transactionItems : List String
  platformHidden : Bool
  platformItems : List String
  deriving DecidableEq, Repr

/-! ## ViewRenderer transforms (app.js lines 81-344) -/

/-- Embeds `formatDate` (app.js lines 81-91).  A falsy input yields the
em-dash placeholder; otherwise the browser renders a host-locale string,
or returns the raw value when `Intl`/`Date` rejects it.  The locale text
is host-dependent and inspected by no claim, so the embedding keeps the
raw value (the catch branch's result) for truthy inputs. -/
def formatDate (value : Option String) : String :=
  jsStrOr value "—"

/-- Embeds `classList.toggle(cls, force)`: a missing `force` (undefined)
flips the class, a boolean `force` sets it. -/
def toggleForce (current : Bool) (force : Option Bool) : Bool :=
  match force with
  | some b => b
  | none => !current

/-- Embeds `renderStatusCard` (app.js lines 98-126). -/
def renderStatusCard (s : Subscription) (ui : Ui) : Ui :=
  let metaParts :=
    (if jsTruthyStr s.subscription_missing_reason
      then [s.subscription_missing_reason.getD ""] else []) ++
    (if jsTruthyStr (s.user.bind (·.expires_at))
      then ["Expires " ++ formatDate (s.user.bind (·.expires_at))] else [])
  { ui with
    subscriptionTitle := jsStrOr (s.user.bind (·.display_name)) "Subscription"
    statusBadgeText := jsStrOr (s.user.bind (·.subscription_status)) "Unknown"
    badgeSuccess := (s.user.map (·.has_active_subscription)).getD false
    badgeDanger := toggleForce ui.badgeDanger (s.user.bind (·.subscription_missing))
    subscriptionMeta :=
      if metaParts.isEmpty then "Active subscription overview."
      else String.intercalate " · " metaParts
    highlights :=
      [("Balance", formatAmountWith s.balance_kopeks (jsStrOr s.balance_currency "₽")),
       ("Traffic", jsStrOr (s.user.bind (·.traffic_limit_label)) "Unlimited"),
       ("Devices", toString (s.connected_devices_count.getD 0)),
       ("Status", jsStrOr (s.user.bind (·.status_label))
          (jsStrOr (s.user.bind (·.status)) "—"))] }

/-- Insertion-order `Set.add`: appends `x` unless already present. -/
def insertUniq (l : List String) (x : String) : List String :=
  if x ∈ l then l else l ++ [x]

/-- The JS `Set` of links built by `renderActions` (app.js lines 129-133):
the three dedicated URL fields are added only when truthy, then every
element of `links` is added unconditionally; duplicates collapse. -/
def actionLinks (s : Subscription) : List String :=
  let addIf := fun (l : List String) (o : Option String) =>
    if jsTruthyStr o then insertUniq l (o.getD "") else l
  let l := addIf (addIf (addIf [] s.subscription_url) s.happ_link) s.happ_crypto_link
  (s.links.getD []).foldl insertUniq l

/-- Embeds `renderActions` (app.js lines 128-170). -/
def renderActions (s : Subscription) (ui : Ui) : Ui :=
  let links := actionLinks s
  if links.isEmpty then
    { ui with actionItems := [], actionsHidden := true }
  else
    { ui with actionsHidden := false, actionItems := links }

/-- Label of one device list item (app.js line 182): the truthy parts of
platform/model/version joined by `·`, defaulting to `'Device'`. -/
def deviceLabel (d : Device) : String :=
  let parts := [d.platform, d.device_model, d.app_version].filterMap id
    |>.filter (fun p => p ≠ "")
  let label := String.intercalate " · " parts
  if label = "" then "Device" else label

/-- Embeds `renderDevices` (app.js lines 172-186). -/
def renderDevices (s : Subscription) (ui : Ui) : Ui :=
  let devices := s.connected_devices.getD []
  if devices.isEmpty then
    { ui with deviceItems := [], devicesHidden := true }
  else
    { ui with devicesHidden := false, deviceItems := devices.map deviceLabel }

/-- Rendered content of one transaction list item (app.js lines 196-207). -/
def txItem (tx : Transaction) : String :=
  jsStrOr tx.description (jsStrOr tx.type "") ++ " | " ++
    formatDate tx.created_at ++ " | " ++ formatAmount tx.amount_kopeks

/-- Embeds `renderTransactions` (app.js lines 188-208): at most the first
five transactions, in the order received. -/
def renderTransactions (s : Subscription) (ui : Ui) : Ui :=
  let transactions := (s.transactions.getD []).take 5
  if transactions.isEmpty then
    { ui with transactionItems := [], transactionsHidden := true }
  else
    { ui with transactionsHidden := false,
              transactionItems := transactions.map txItem }

/-- The string tag a `Platform` uses as a key of `config.platforms`. -/
def Platform.tag : Platform → String
  | .ios => "ios"
  | .android => "android"
  | .windows => "windows"
  | .mac => "mac"
  | .linux => "linux"
  | .androidTV => "androidTV"
  | .generic => "generic"

/-- Embeds `renderPlatformGuide` (app.js lines 210-254). -/
def renderPlatformGuide (config : Config) (platform : Platform)
    (s : Subscription) (lang : String) (ui : Ui) : Ui :=
  match (config.platforms.find? (fun p => p.1 = platform.tag)).map Prod.snd with
  | none => { ui with platformItems := [], platformHidden := true }
  | some steps =>
    if steps.isEmpty then { ui with platformItems := [], platformHidden := true }
    else
      let client := steps.headD ⟨none, none, none⟩
      let stepText := fun (title : String) (st : Option GuideStep) =>
        title ++ ": " ++
          ((st.bind (·.description)).bind (resolveI18n lang)).getD ""
      let items :=
        [stepText "Install the app" client.installationStep,
         stepText "Add subscription" client.addSubscriptionStep,
         stepText "Connect & browse" client.connectAndUseStep] ++
        (if jsTruthyStr s.subscription_url
          then ["Need the URL? " ++ s.subscription_url.getD ""] else [])
      { ui with platformHidden := false, platformItems := items }

/-- Embeds `renderPayments` (app.js lines 256-344), as far as the panel's
visibility and its one-wrapper-per-method structure go (the per-method
click handler is modelled separately as `payClick`). -/
def renderPayments (methods : List PaymentMethod) (ui : Ui) : Ui :=
  if methods.isEmpty then
    { ui with paymentItems := [], paymentsHidden := true }
  else
    { ui with paymentsHidden := false, paymentItems := methods.map (·.id) }

/-! ## Network calls (`fetchJson`, app.js lines 58-70) -/

/-- The ways one `fetch` + parse round can go, as seen by `fetchJson`:
the fetch promise rejects; the response is non-2xx (its text body is
read); the body fails to parse as JSON (`response.json()` rejects with a
host message); or a parsed value comes back. -/
inductive NetResult (α : Type) where
  | netError (msg : String)
  | httpNot2xx (status : ℕ) (bodyText : String)
  | parseFailure (msg : String)
  | success (v : α)
  deriving DecidableEq, Repr

/-- Embeds `fetchJson` (app.js lines 58-70): non-2xx responses raise an
error carrying the response text, or `Request failed (status)` when the
text is empty; rejections propagate; a parsed body is returned. -/
def fetchJson {α : Type} : NetResult α → Except String α
  | .netError m => .error m
  | .httpNot2xx status body =>
      .error (if body ≠ "" then body
              else "Request failed (" ++ toString status ++ ")")
  | .parseFailure m => .error m
  | .success v => .ok v

/-! ## PaymentWorkflow (app.js lines 283-340) -/

/-- Embeds the amount input's `min` (app.js line 289):
`method.min_amount_kopeks ? method.min_amount_kopeks / 100 : 1`. -/
def inputMin (m : PaymentMethod) : ℚ :=
  match m.min_amount_kopeks with
  | some k => if k ≠ 0 then (k : ℚ) / 100 else 1
  | none => 1

/-- Embeds the amount input's initial value (app.js line 291):
`input.value = input.min || 100` — the stringified `min` is falsy exactly
when the numeric `min` is `0`. -/
def defaultAmountValue (m : PaymentMethod) : ℚ :=
  if inputMin m = 0 then 100 else inputMin m

/-- Embeds the payload construction of the pay-button handler (app.js
lines 320-327).  `amountFieldValue` is the numeric content of the amount
input (`none` for a cleared field, which `Number(value || 0)` turns into
`0`); `selectValue` is the option select's current value. -/
def buildPayload (tok : String) (m : PaymentMethod)
    (amountFieldValue : Option ℚ) (selectValue : String) : PaymentPayload :=
  { initData := tok
    method := m.id
    amountRubles :=
      if m.requires_amount then some (amountFieldValue.getD 0) else none
    option :=
      if (m.options.getD []).length ≠ 0 then some selectValue else none }

/-- The pay button as the handler leaves it. -/
structure PayButton where
  disabled : Bool
  text : String
  deriving DecidableEq, Repr

/-- Everything one run of the pay-button click handler produces. -/
structure PayClickResult where
  button : PayButton
  request : PaymentPayload
  openedUrl : Option String
  alertMsg : Option String
  deriving DecidableEq, Repr

/-- Embeds one settled run of the pay-button click handler (app.js lines
316-340): build the payload, post it, open `payment_url` in a new context
when it is truthy, relabel the button `Open again` on success and
`Try again` plus an alert on failure, and re-enable the button in the
`finally` block either way. -/
def payClick (tok : String) (m : PaymentMethod) (amountFieldValue : Option ℚ)
    (selectValue : String) (net : NetResult PayResponse) : PayClickResult :=
  let payload := buildPayload tok m amountFieldValue selectValue
  match fetchJson net with
  | .ok resp =>
      { button := ⟨false, "Open again"⟩
        request := payload
        openedUrl := if jsTruthyStr resp.payment_url then resp.payment_url else none
        alertMsg := none }
  | .error e =>
      { button := ⟨false, "Try again"⟩
        request := payload
        openedUrl := none
        alertMsg := some ("Cannot start payment: " ++ e) }

/-! ## The pay button's disable window (app.js lines 316-339)

The handler sets `payButton.disabled = true` synchronously before its
first `await` and clears it in `finally` when the request settles; the
browser delivers no click to a disabled button.  This yields a per-button
transition system: a click on an enabled button starts a request and
disables the button; a settle re-enables it. -/

structure BtnState where
  disabled : Bool
  inFlight : ℕ
  deriving DecidableEq, Repr

inductive BtnEvent where
  | click
  | settle
  deriving DecidableEq, Repr

/-- One step of the pay-button transition system. -/
def btnStep (s : BtnState) : BtnEvent → BtnState
  | .click => if s.disabled then s else ⟨true, s.inFlight + 1⟩
  | .settle => if s.inFlight = 0 then s else ⟨false, s.inFlight - 1⟩

/-- The button as `renderPayments` creates it: enabled, nothing in flight. -/
def btnInit : BtnState := ⟨false, 0⟩

/-- The state after an event sequence. -/
def btnRun (evs : List BtnEvent) : BtnState :=
  evs.foldl btnStep btnInit

/-! ## BootstrapController (app.js lines 41-45, 353-426) -/

/-- Embeds `readInitData` (app.js lines 41-45).  By JS precedence the
first line is `(tg?.initData || tg?.initDataUnsafe?.query_id) ? tg.initData : ''`,
so a truthy `query_id` alone still yields the (falsy) `tg.initData`. -/
def readInitData (tgInitData tgQueryId queryParam : Option String) : String :=
  let fromTg :=
    if jsTruthyStr tgInitData || jsTruthyStr tgQueryId
      then tgInitData.getD "" else ""
  let fromQuery := jsStrOr queryParam ""
  if fromTg ≠ "" then fromTg else fromQuery

/-- Embeds the branding side effects of `loadConfig` (app.js lines
356-363); the logo background swap touches no slot a claim observes. -/
def applyConfig (config : Config) (ui : Ui) : Ui :=
  { ui with
    supportHref := jsStrOr (config.branding.bind (·.supportUrl)) "https://t.me"
    brandTitle := jsStrOr (config.branding.bind (·.name)) "Bedolaga VPN"
    supportCopy := jsStrOr (config.branding.bind (·.description)) ui.supportCopy }

/-- Embeds `showInitError` (app.js lines 388-398): the unauthenticated
placeholder state. -/
def showInitError (ui : Ui) : Ui :=
  { ui with
    subscriptionTitle := "Open in Telegram"
    subscriptionMeta := "We could not detect Telegram init data. Open the Mini App from the bot so we can load your subscription."
    statusBadgeText := "Not authorized"
    badgeDanger := true
    actionsHidden := true
    paymentsHidden := true
    devicesHidden := true
    transactionsHidden := true
    platformHidden := true }

/-- The render cascade of `loadSubscription` (app.js lines 370-374). -/
def renderSubscriptionViews (config : Config) (platform : Platform)
    (lang : String) (data : Subscription) (ui : Ui) : Ui :=
  renderPlatformGuide config platform data lang
    (renderTransactions data (renderDevices data
      (renderActions data (renderStatusCard data ui))))

/-- Embeds `loadPayments` (app.js lines 377-386): a failed methods fetch
is caught locally and only hides the payments card. -/
def loadPayments (net : NetResult MethodsDoc) (ui : Ui) : Ui :=
  match fetchJson net with
  | .ok data => renderPayments (data.methods.getD []) ui
  | .error _ => { ui with paymentsHidden := true }

/-- The network endpoints app.js can contact. -/
inductive Endpoint where
  | configDoc
  | subscriptionData
  | paymentMethodsList
  | paymentCreate
  deriving DecidableEq, Repr

/-- The environment one bootstrap pass runs against: the three init-data
sources, the user agent, the active language, and the outcome of each
network fetch the pass may perform.  `configFetch` is the plain `fetch`
of `app-config.json` followed by `safeJsonParse` (error: the fetch or
text read rejects; `ok none`: the body is not JSON, which `safeJsonParse`
maps to `null`). -/
structure Env where
  tgInitData : Option String
  tgQueryId : Option String
  queryParam : Option String
  userAgent : String
  lang : String
  configFetch : Except String (Option ConfigDoc)
  subscriptionFetch : NetResult Subscription
  methodsFetch : NetResult MethodsDoc

/-- How a bootstrap pass ends: normal completion, or an uncaught promise
rejection escaping `bootstrap()` (which no caller handles, app.js
line 426). -/
inductive Outcome where
  | completed
  | uncaughtRejection (msg : String)
  deriving DecidableEq, Repr

/-- The observable result of one bootstrap pass: how it ended, the final
rendering surface, and the endpoints contacted, in order. -/
structure BootResult where
  outcome : Outcome
  ui : Ui
  calls : List Endpoint
  deriving Repr

/-- Embeds `bootstrap` (app.js lines 400-424).  `loadConfig` is awaited
outside the `try` block, so its rejection escapes; `safeJsonParse`
failures fall back to `{}` and continue; the `try` block covers the
subscription and payments loads, turning a subscription failure into the
generic error status; `loadPayments` never throws. -/
def bootstrap (env : Env) (ui0 : Ui) : BootResult :=
  let token := readInitData env.tgInitData env.tgQueryId env.queryParam
  let platform := detectPlatform env.userAgent
  match env.configFetch with
  | .error e => ⟨.uncaughtRejection e, ui0, [.configDoc]⟩
  | .ok parsed =>
    let config := (parsed.bind (·.config)).getD emptyConfig
    let ui1 := applyConfig config ui0
    if token = "" then
      ⟨.completed, showInitError ui1, [.configDoc]⟩
    else
      match fetchJson env.subscriptionFetch with
      | .error _ =>
          ⟨.completed,
           { ui1 with
             subscriptionMeta := "Failed to load data. Pull to refresh or try again later."
             statusBadgeText := "Error"
             badgeDanger := true },
           [.configDoc, .subscriptionData]⟩
      | .ok data =>
          let ui2 := renderSubscriptionViews config platform env.lang data ui1
          ⟨.completed, loadPayments env.methodsFetch ui2,
           [.configDoc, .subscriptionData, .paymentMethodsList]⟩

/-! ## Concrete values used to instantiate the theorems -/

/-- A rendering surface with every section visible and distinctive texts,
used to observe what a code path leaves untouched. -/
def demoUi : Ui :=
  { brandTitle := "Brand"
    supportHref := "https://example.test"
    supportCopy := "copy"
    subscriptionTitle := "Title"
    subscriptionMeta := "Meta"
    statusBadgeText := "Badge"
    badgeDanger := false
    badgeSuccess := false
    highlights := []
    actionsHidden := false
    actionItems := []
    paymentsHidden := false
    paymentItems := []
    devicesHidden := false
    deviceItems := []
    transactionsHidden := false
    transactionItems := []
    platformHidden := false
    platformItems := [] }

/-- A minimal account snapshot: every optional field absent. -/
def demoEmptySub : Subscription :=
  { user := none
    balance_kopeks := .undef
    balance_currency := none
    subscription_missing_reason := none
    subscription_url := none
    happ_link := none
    happ_crypto_link := none
    links := none
    connected_devices := none
    connected_devices_count := none
    transactions := none }

/-- A payment method that requires an amount, with a 5000-kopek minimum. -/
def demoMethod : PaymentMethod :=
  { id := "card"
    name := none
    icon := none
    requires_amount := true
    min_amount_kopeks := some 5000
    amount_step_kopeks := none
    currency := none
    options := none }

/-- An environment whose config fetch rejects while a token is present. -/
def demoEnvConfigDown : Env :=
  { tgInitData := some "tok"
    tgQueryId := none
    queryParam := none
    userAgent := "agent"
    lang := "en"
    configFetch := .error "NetworkError when attempting to fetch resource."
    subscriptionFetch := .success demoEmptySub
    methodsFetch := .success ⟨some []⟩ }

/-- An environment with no token anywhere and a rejecting config fetch. -/
def demoEnvNoTokenConfigDown : Env :=
  { demoEnvConfigDown with tgInitData := none }

/-- An environment with no token anywhere and a successful config fetch
whose body is not valid JSON (`safeJsonParse` yields `null`). -/
def demoEnvNoToken : Env :=
  { demoEnvNoTokenConfigDown with configFetch := .ok none }

/-! ## Claims -/

/-- Claim C9: for all minor-unit integers `m ≥ 0`, `formatAmount(m)` is
`m/100` formatted to exactly two decimal places, a space, and the currency
symbol (`'₽'` when no currency is supplied); every non-numeric input
formats as the em-dash placeholder. -/
theorem formatAmount_spec :
    (∀ (m : ℕ) (c : String),
      formatAmountWith (.num m) c =
        toString (m / 100) ++ "." ++ pad2 (m % 100) ++ " " ++ c) ∧
    (∀ v : JsVal, v.isNumber = false → ∀ c, formatAmountWith v c = "—") ∧
    (∀ v : JsVal, formatAmount v = formatAmountWith v "₽") := by
  refine ⟨?_, ?_, ?_⟩
  · intro m c
    have hdiv : ((m : ℚ) / 100) * 100 = (m : ℚ) :=
      div_mul_cancel₀ _ (by norm_num)
    have hfloor : ⌊(m : ℚ) / 100 * 100 + 1 / 2⌋ = (m : ℤ) := by
      rw [hdiv, Int.floor_eq_iff]
      constructor
      · push_cast; linarith
      · push_cast; linarith
    have hnonneg : ¬ ((m : ℤ) < 0) :=
      not_lt.mpr (Int.ofNat_nonneg m)
    show toFixed2 ((m : ℚ) / 100) ++ " " ++ c = _
    unfold toFixed2
    rw [hfloor]
    simp only [Int.natAbs_ofNat]
    rw [if_neg hnonneg]
    rw [String.empty_append (toString (m / 100))]
  · intro v hv c
    cases v <;> simp_all [formatAmountWith, JsVal.isNumber]
  · intro v; rfl

/-- Claim C9 witness: the non-numeric branch at a concrete input. -/
theorem formatAmount_spec_witness :
    formatAmountWith JsVal.jnull "₽" = "—" :=
  formatAmount_spec.2.1 JsVal.jnull rfl "₽"

/-- Claim C10: `detectPlatform` returns exactly one tag of the closed
seven-tag set, evaluates the six patterns in the fixed priority order
iOS > Android > Windows > Mac > Linux > AndroidTV with the first match
winning, and returns `generic` if and only if no pattern matches the
lower-cased user agent. -/
theorem detectPlatform_spec :
    ∀ ua : String,
      detectPlatform ua ∈
        [Platform.ios, .android, .windows, .mac, .linux, .androidTV, .generic] ∧
      (matchIos (toLowerAscii ua) = true → detectPlatform ua = .ios) ∧
      (matchIos (toLowerAscii ua) = false → matchAndroid (toLowerAscii ua) = true →
        detectPlatform ua = .android) ∧
      (matchIos (toLowerAscii ua) = false → matchAndroid (toLowerAscii ua) = false →
        matchWindows (toLowerAscii ua) = true → detectPlatform ua = .windows) ∧
      (matchIos (toLowerAscii ua) = false → matchAndroid (toLowerAscii ua) = false →
        matchWindows (toLowerAscii ua) = false → matchMac (toLowerAscii ua) = true →
        detectPlatform ua = .mac) ∧
      (matchIos (toLowerAscii ua) = false → matchAndroid (toLowerAscii ua) = false →
        matchWindows (toLowerAscii ua) = false → matchMac (toLowerAscii ua) = false →
        matchLinux (toLowerAscii ua) = true → detectPlatform ua = .linux) ∧
      (matchIos (toLowerAscii ua) = false → matchAndroid (toLowerAscii ua) = false →
        matchWindows (toLowerAscii ua) = false → matchMac (toLowerAscii ua) = false →
        matchLinux (toLowerAscii ua) = false → matchTv (toLowerAscii ua) = true →
        detectPlatform ua = .androidTV) ∧
      (detectPlatform ua = .generic ↔
        matchIos (toLowerAscii ua) = false ∧ matchAndroid (toLowerAscii ua) = false ∧
        matchWindows (toLowerAscii ua) = false ∧ matchMac (toLowerAscii ua) = false ∧
        matchLinux (toLowerAscii ua) = false ∧ matchTv (toLowerAscii ua) = false) := by
  intro ua
  simp only [detectPlatform]
  split_ifs with h1 h2 h3 h4 h5 h6 <;> simp_all

/-- Claim C10 witness: the iOS branch at a concrete user agent. -/
theorem detectPlatform_spec_witness :
    detectPlatform "Mozilla (iPhone; CPU iPhone OS)" = Platform.ios :=
  (detectPlatform_spec "Mozilla (iPhone; CPU iPhone OS)").2.1 (by decide)

/-- Claim C2: for a payment method with `requires_amount = true` and no
amount typed by the user (the field still holds its initial value), the
outbound payload's major-unit `amountRubles` equals the method's minimum
converted to major units, or 1 major unit (the 100 minor-units
equivalent) when the method carries no (nonzero) minimum. -/
theorem defaultAmount_spec :
    ∀ (tok : String) (m : PaymentMethod) (selectValue : String),
      m.requires_amount = true →
      (buildPayload tok m (some (defaultAmountValue m)) selectValue).amountRubles =
        some ((if m.min_amount_kopeks.getD 0 ≠ 0
                then (m.min_amount_kopeks.getD 0 : ℚ) else 100) / 100) := by
  intro tok m selectValue hreq
  have hval : defaultAmountValue m =
      (if m.min_amount_kopeks.getD 0 ≠ 0
        then (m.min_amount_kopeks.getD 0 : ℚ) else 100) / 100 := by
    rcases hmin : m.min_amount_kopeks with _ | k
    · norm_num [defaultAmountValue, inputMin, hmin]
    · rcases Nat.eq_zero_or_pos k with hk | hk
      · subst hk
        norm_num [defaultAmountValue, inputMin, hmin]
      · have hk0 : k ≠ 0 := Nat.pos_iff_ne_zero.mp hk
        have hq : ((k : ℚ) / 100) ≠ 0 := by positivity
        simp [defaultAmountValue, inputMin, hmin, hk0, hq]
  simp [buildPayload, hreq, hval]

/-- Claim C2 witness: the default amount for a method with a 5000-kopek
minimum is 50 rubles. -/
theorem defaultAmount_spec_witness :
    (buildPayload "tok" demoMethod (some (defaultAmountValue demoMethod))
        "").amountRubles =
      some ((if demoMethod.min_amount_kopeks.getD 0 ≠ 0
              then (demoMethod.min_amount_kopeks.getD 0 : ℚ) else 100) / 100) :=
  defaultAmount_spec "tok" demoMethod "" rfl

/-- Claim C7: a failed payment-methods load is recovered locally — the
resulting surface is the old one with only the payments card hidden, so
every other rendered section and the status area are untouched. -/
theorem loadPayments_failure_spec :
    ∀ (ui : Ui) (net : NetResult MethodsDoc) (e : String),
      fetchJson net = .error e →
      loadPayments net ui = { ui with paymentsHidden := true } := by
  intro ui net e h
  unfold loadPayments
  rw [h]

/-- Claim C7 witness: a rejecting methods fetch hides the payments card
of the demo surface and changes nothing else. -/
theorem loadPayments_failure_spec_witness :
    loadPayments (NetResult.netError "down") demoUi =
      { demoUi with paymentsHidden := true } :=
  loadPayments_failure_spec demoUi (NetResult.netError "down") "down" rfl

/-- The invariant the pay button maintains: at most one request in
flight, and the button is disabled exactly while one is. -/
def BtnInv (s : BtnState) : Prop :=
  s.inFlight ≤ 1 ∧ (s.disabled = true ↔ s.inFlight = 1)

theorem btnStep_inv (s : BtnState) (e : BtnEvent) (h : BtnInv s) :
    BtnInv (btnStep s e) := by
  obtain ⟨hle, hiff⟩ := h
  cases e with
  | click =>
      by_cases hd : s.disabled = true
      · simpa [btnStep, hd] using ⟨hle, hiff⟩
      · have hne : s.inFlight ≠ 1 := fun h1 => hd (hiff.mpr h1)
        have h0 : s.inFlight = 0 := by omega
        simp [btnStep, hd, BtnInv, h0]
  | settle =>
      by_cases hz : s.inFlight = 0
      · simpa [btnStep, hz] using ⟨hle, hiff⟩
      · have h1 : s.inFlight = 1 := by omega
        simp [btnStep, hz, BtnInv, h1]

theorem btnFoldl_inv (evs : List BtnEvent) (s : BtnState) (h : BtnInv s) :
    BtnInv (evs.foldl btnStep s) := by
  induction evs generalizing s with
  | nil => simpa using h
  | cons e rest ih => exact ih (btnStep s e) (btnStep_inv s e h)

/-- Claim C8: starting from the enabled button `renderPayments` creates,
every event sequence of user clicks and request settlements keeps at most
one payment-create request in flight, the button is disabled exactly while
one is in flight (the whole `Submitting` window), a settle re-enables it,
and a click during flight starts no second request. -/
theorem payButton_mutex_spec :
    ∀ evs : List BtnEvent,
      (btnRun evs).inFlight ≤ 1 ∧
      ((btnRun evs).disabled = true ↔ (btnRun evs).inFlight = 1) ∧
      ((btnRun evs).inFlight = 1 →
        (btnStep (btnRun evs) .settle).disabled = false ∧
        (btnStep (btnRun evs) .click).inFlight = 1) := by
  intro evs
  have hinv : BtnInv (btnRun evs) :=
    btnFoldl_inv evs btnInit (by constructor <;> simp [btnInit])
  obtain ⟨hle, hiff⟩ := hinv
  refine ⟨hle, hiff, ?_⟩
  intro hone
  have hd : (btnRun evs).disabled = true := hiff.mpr hone
  constructor
  · simp [btnStep, hone]
  · simp [btnStep, hd, hone]

/-- Claim C8 witness: after one click the in-flight request blocks a
second one. -/
theorem payButton_mutex_spec_witness :
    (btnStep (btnRun [BtnEvent.click]) BtnEvent.click).inFlight = 1 :=
  ((payButton_mutex_spec [BtnEvent.click]).2.2 (by decide)).2

/-- Claim C6: a section backed by an empty collection is hidden with no
items rendered; a non-empty collection shows the section with one item per
element — devices one per device, actions one per distinct link, and
transactions one per element of the first five, in the order received. -/
theorem render_sections_spec :
    ∀ (s : Subscription) (ui : Ui),
      (s.connected_devices.getD [] = [] →
        (renderDevices s ui).devicesHidden = true ∧
        (renderDevices s ui).deviceItems = []) ∧
      (s.connected_devices.getD [] ≠ [] →
        (renderDevices s ui).devicesHidden = false ∧
        (renderDevices s ui).deviceItems.length =
          (s.connected_devices.getD []).length) ∧
      (s.transactions.getD [] = [] →
        (renderTransactions s ui).transactionsHidden = true ∧
        (renderTransactions s ui).transactionItems = []) ∧
      (s.transactions.getD [] ≠ [] →
        (renderTransactions s ui).transactionsHidden = false ∧
        (renderTransactions s ui).transactionItems =
          ((s.transactions.getD []).take 5).map txItem ∧
        (renderTransactions s ui).transactionItems.length =
          min 5 (s.transactions.getD []).length) ∧
      (actionLinks s = [] →
        (renderActions s ui).actionsHidden = true ∧
        (renderActions s ui).actionItems = []) ∧
      (actionLinks s ≠ [] →
        (renderActions s ui).actionsHidden = false ∧
        (renderActions s ui).actionItems = actionLinks s) := by
  intro s ui
  refine ⟨?_, ?_, ?_, ?_, ?_, ?_⟩
  · intro h; simp [renderDevices, h]
  · intro h; simp [renderDevices, h]
  · intro h; simp [renderTransactions, h]
  · intro h
    have htake : (s.transactions.getD []).take 5 ≠ [] := by
      simpa [List.take_eq_nil_iff] using h
    refine ⟨?_, ?_, ?_⟩
    · simp [renderTransactions, htake]
    · simp [renderTransactions, htake]
    · simp [renderTransactions, htake, List.length_take]
  · intro h; simp [renderActions, h]
  · intro h; simp [renderActions, h]

/-- Claim C6 witness: the all-absent snapshot hides the devices section. -/
theorem render_sections_spec_witness :
    (renderDevices demoEmptySub demoUi).devicesHidden = true :=
  ((render_sections_spec demoEmptySub demoUi).1 rfl).1

/-- Claim C4 counterexample: the claim says a plain string input is
returned unchanged, but `if (!entity) return null` fires on the (falsy)
empty string, so `resolveI18n('')` is `null`, not `''`. -/
theorem resolveI18n_counterexample :
    resolveI18n "en" (I18nValue.jstr "") = none ∧
    resolveI18n "en" (I18nValue.jstr "") ≠ some "" := by
  constructor <;> simp [resolveI18n]

/-- Claim C4 (amended): `resolveI18n` is total and deterministic;
null/absent input and the empty string yield null; a non-empty plain
string is returned unchanged; a mapping yields the active-language entry
when that entry is non-empty, else the `"en"` entry when non-empty, else
the mapping's first value (whatever it is) — so a missing entry and an
empty mapping yield no string — and any string it returns is one of the
mapping's entries. -/
theorem resolveI18n_spec :
    ∀ lang : String,
      resolveI18n lang .jnull = none ∧
      resolveI18n lang (.jstr "") = none ∧
      (∀ s : String, s ≠ "" → resolveI18n lang (.jstr s) = some s) ∧
      (∀ (m : List (String × String)) (s : String),
        jsLookup m lang = some s → s ≠ "" →
        resolveI18n lang (.jmap m) = some s) ∧
      (∀ (m : List (String × String)) (s : String),
        jsTruthyStr (jsLookup m lang) = false →
        jsLookup m "en" = some s → s ≠ "" →
        resolveI18n lang (.jmap m) = some s) ∧
      (∀ m : List (String × String),
        jsTruthyStr (jsLookup m lang) = false →
        jsTruthyStr (jsLookup m "en") = false →
        resolveI18n lang (.jmap m) = (m.map Prod.snd).head?) ∧
      (∀ (m : List (String × String)) (s : String),
        resolveI18n lang (.jmap m) = some s → s ∈ m.map Prod.snd) := by
  intro lang
  have hmemLookup : ∀ (m : List (String × String)) (k t : String),
      jsLookup m k = some t → t ∈ m.map Prod.snd := by
    intro m k t ht
    unfold jsLookup at ht
    rcases hf : m.find? (fun p => p.1 = k) with _ | p
    · simp [hf] at ht
    · have hp : p ∈ m := List.mem_of_find?_eq_some hf
      rw [hf] at ht
      simp at ht
      exact ht ▸ List.mem_map_of_mem Prod.snd hp
  refine ⟨rfl, by simp [resolveI18n], ?_, ?_, ?_, ?_, ?_⟩
  · intro s hs; simp [resolveI18n, hs]
  · intro m s hlk hs
    simp [resolveI18n, jsOrElse, hlk, hs]
  · intro m s hfalsy hlk hs
    rcases h1 : jsLookup m lang with _ | t
    · simp [resolveI18n, jsOrElse, h1, hlk, hs]
    · have ht : t = "" := by simpa [jsTruthyStr, h1] using hfalsy
      subst ht
      simp [resolveI18n, jsOrElse, h1, hlk, hs]
  · intro m h1 h2
    rcases hl1 : jsLookup m lang with _ | t1 <;>
      rcases hl2 : jsLookup m "en" with _ | t2 <;>
      simp_all [resolveI18n, jsOrElse, jsTruthyStr]
  · intro m s h
    rcases hl1 : jsLookup m lang with _ | t1
    · rcases hl2 : jsLookup m "en" with _ | t2
      · rcases m with _ | ⟨p, ps⟩
        · simp [resolveI18n, jsOrElse, hl1, hl2] at h
        · simp [resolveI18n, jsOrElse, hl1, hl2] at h
          subst h
          simp
      · by_cases h2 : t2 = ""
        · subst h2
          rcases m with _ | ⟨p, ps⟩
          · simp [resolveI18n, jsOrElse, hl1, hl2] at h
          · simp [resolveI18n, jsOrElse, hl1, hl2] at h
            subst h
            simp
        · have h' : t2 = s := by
            simpa [resolveI18n, jsOrElse, hl1, hl2, h2] using h
          exact h' ▸ hmemLookup m "en" t2 hl2
    · by_cases h1 : t1 = ""
      · subst h1
        rcases hl2 : jsLookup m "en" with _ | t2
        · rcases m with _ | ⟨p, ps⟩
          · simp [resolveI18n, jsOrElse, hl1, hl2] at h
          · simp [resolveI18n, jsOrElse, hl1, hl2] at h
            subst h
            simp
        · by_cases h2 : t2 = ""
          · subst h2
            rcases m with _ | ⟨p, ps⟩
            · simp [resolveI18n, jsOrElse, hl1, hl2] at h
            · simp [resolveI18n, jsOrElse, hl1, hl2] at h
              subst h
              simp
          · have h' : t2 = s := by
              simpa [resolveI18n, jsOrElse, hl1, hl2, h2] using h
            exact h' ▸ hmemLookup m "en" t2 hl2
      · have h' : t1 = s := by
          simpa [resolveI18n, jsOrElse, hl1, h1] using h
        exact h' ▸ hmemLookup m lang t1 hl1

/-- Claim C4 witness: the active-language branch on a concrete mapping. -/
theorem resolveI18n_spec_witness :
    resolveI18n "de" (I18nValue.jmap [("de", "Hallo"), ("en", "Hello")]) =
      some "Hallo" :=
  (resolveI18n_spec "de").2.2.2.1 [("de", "Hallo"), ("en", "Hello")] "Hallo"
    (by decide) (by decide)

/-- Claim C1 counterexample: a 2xx payment-create response whose body
carries no `payment_url` is not treated as a failure — the handler raises
no alert and relabels the button `Open again` (the Succeeded affordance),
contradicting the claim that this case surfaces an error message and
transitions to Failed. -/
theorem payClick_counterexample :
    (payClick "tok" demoMethod none "" (NetResult.success ⟨none⟩)).alertMsg
        = none ∧
    (payClick "tok" demoMethod none "" (NetResult.success ⟨none⟩)).button.text
        ≠ "Try again" ∧
    (payClick "tok" demoMethod none "" (NetResult.success ⟨none⟩)).openedUrl
        = none := by
  refine ⟨rfl, ?_, rfl⟩
  simp [payClick, fetchJson, buildPayload]

/-- Claim C1 (amended): when the payment-create call itself fails
(network error, non-2xx, or unparsable body), the handler surfaces an
alert containing the failure detail and moves to Failed (`Try again`)
with the button re-enabled; when the call succeeds it moves to Succeeded
(`Open again`, button re-enabled) with no error surfaced, opening the
response's `payment_url` in a new browsing context exactly when that url
is present and non-empty — a successful response without one opens
nothing but is still presented as success. -/
theorem payClick_spec :
    ∀ (tok : String) (m : PaymentMethod) (af : Option ℚ) (sel : String)
      (net : NetResult PayResponse),
      (∀ e, fetchJson net = Except.error e →
        (payClick tok m af sel net).alertMsg =
            some ("Cannot start payment: " ++ e) ∧
        (payClick tok m af sel net).button = ⟨false, "Try again"⟩ ∧
        (payClick tok m af sel net).openedUrl = none) ∧
      (∀ resp, fetchJson net = Except.ok resp →
        (payClick tok m af sel net).alertMsg = none ∧
        (payClick tok m af sel net).button = ⟨false, "Open again"⟩ ∧
        ((∃ u, resp.payment_url = some u ∧ u ≠ "" ∧
            (payClick tok m af sel net).openedUrl = some u) ∨
         (jsTruthyStr resp.payment_url = false ∧
            (payClick tok m af sel net).openedUrl = none))) ∧
      (∀ (status : ℕ) (body : String), body ≠ "" →
        (payClick tok m af sel (.httpNot2xx status body)).alertMsg =
          some ("Cannot start payment: " ++ body)) := by
  intro tok m af sel net
  refine ⟨?_, ?_, ?_⟩
  · intro e he
    simp [payClick, he]
  · intro resp hr
    refine ⟨by simp [payClick, hr], by simp [payClick, hr], ?_⟩
    rcases hu : resp.payment_url with _ | u
    · right
      constructor
      · simp [jsTruthyStr, hu]
      · simp [payClick, hr, jsTruthyStr, hu]
    · by_cases hne : u = ""
      · subst hne
        right
        constructor
        · simp [jsTruthyStr, hu]
        · simp [payClick, hr, jsTruthyStr, hu]
      · left
        exact ⟨u, rfl, hne, by simp [payClick, hr, jsTruthyStr, hu, hne]⟩
  · intro status body hb
    simp [payClick, fetchJson, hb]

/-- Claim C1 witness: a rejecting payment-create call at a concrete input
raises the alert with the failure detail. -/
theorem payClick_spec_witness :
    (payClick "tok" demoMethod none "" (NetResult.netError "boom")).alertMsg =
      some ("Cannot start payment: " ++ "boom") :=
  ((payClick_spec "tok" demoMethod none "" (NetResult.netError "boom")).1
    "boom" rfl).1

/-- Claim C3 counterexample: a network error on the config load is
neither caught nor surfaced — `await loadConfig()` sits outside
`bootstrap`'s try block, so the pass ends as an uncaught rejection with
the rendering surface (status area included) untouched, contradicting
both the claimed generic status message and the claimed
never-escalates-to-process-level guarantee. -/
theorem bootstrap_config_counterexample :
    (bootstrap demoEnvConfigDown demoUi).outcome =
        Outcome.uncaughtRejection
          "NetworkError when attempting to fetch resource." ∧
    (bootstrap demoEnvConfigDown demoUi).ui = demoUi := by
  constructor <;> rfl

/-- Claim C3 (amended): a network or parse error on the account load is
fatal to the authenticated render path and surfaced as the generic status
message with the failed badge, leaving everything rendered so far (the
branding applied from the config step) intact; a parse error on the
config load, however, is recovered silently — the pass continues on an
empty config exactly as if the document had parsed to `{}` — and a
network error on the config load escapes the pass as an uncaught
rejection with nothing rendered or surfaced. -/
theorem bootstrap_load_error_spec :
    ∀ (env : Env) (ui0 : Ui),
      (∀ e, env.configFetch = .error e →
        bootstrap env ui0 = ⟨.uncaughtRejection e, ui0, [.configDoc]⟩) ∧
      (env.configFetch = .ok none →
        bootstrap env ui0 =
          bootstrap { env with configFetch := .ok (some ⟨some emptyConfig⟩) } ui0) ∧
      (∀ (p : Option ConfigDoc) (e : String),
        env.configFetch = .ok p →
        readInitData env.tgInitData env.tgQueryId env.queryParam ≠ "" →
        fetchJson env.subscriptionFetch = .error e →
        bootstrap env ui0 =
          ⟨.completed,
           { applyConfig ((p.bind (·.config)).getD emptyConfig) ui0 with
             subscriptionMeta :=
               "Failed to load data. Pull to refresh or try again later."
             statusBadgeText := "Error"
             badgeDanger := true },
           [.configDoc, .subscriptionData]⟩) := by
  intro env ui0
  refine ⟨?_, ?_, ?_⟩
  · intro e he
    unfold bootstrap
    rw [he]
  · intro hp
    unfold bootstrap
    rw [hp]
    rfl
  · intro p e hp htok hsub
    unfold bootstrap
    rw [hp]
    simp [htok, hsub]

/-- Claim C3 witness: a failing subscription fetch at a concrete
environment completes the pass with the generic error status. -/
theorem bootstrap_load_error_spec_witness :
    bootstrap { demoEnvConfigDown with
                configFetch := .ok none
                subscriptionFetch := .netError "down" } demoUi =
      ⟨.completed,
       { applyConfig emptyConfig demoUi with
         subscriptionMeta :=
           "Failed to load data. Pull to refresh or try again later."
         statusBadgeText := "Error"
         badgeDanger := true },
       [.configDoc, .subscriptionData]⟩ :=
  (bootstrap_load_error_spec
      { demoEnvConfigDown with
        configFetch := .ok none
        subscriptionFetch := .netError "down" } demoUi).2.2
    none "down" rfl (by decide) rfl

/-- Claim C5 counterexample: a token-less bootstrap pass whose config
fetch rejects never reaches the unauthenticated placeholder — the pass
dies as an uncaught rejection with the surface untouched (the account
sections still visible), contradicting the claim that every token-less
pass renders the placeholder state. -/
theorem bootstrap_no_token_counterexample :
    readInitData demoEnvNoTokenConfigDown.tgInitData
        demoEnvNoTokenConfigDown.tgQueryId
        demoEnvNoTokenConfigDown.queryParam = "" ∧
    (bootstrap demoEnvNoTokenConfigDown demoUi).ui.actionsHidden = false ∧
    (bootstrap demoEnvNoTokenConfigDown demoUi).ui.subscriptionMeta ≠
      "We could not detect Telegram init data. Open the Mini App from the bot so we can load your subscription." := by
  refine ⟨rfl, rfl, ?_⟩
  simp [bootstrap, demoEnvNoTokenConfigDown, demoEnvConfigDown, demoUi]

/-- Claim C5 (amended): on every bootstrap pass whose config fetch does
not reject and in which no init token is resolvable, the controller
renders the unauthenticated placeholder — every account and payment
section hidden, the single explanatory message and `Not authorized`
badge in place — completes normally, and contacts no endpoint beyond the
config document. -/
theorem bootstrap_no_token_spec :
    ∀ (env : Env) (ui0 : Ui) (p : Option ConfigDoc),
      env.configFetch = .ok p →
      readInitData env.tgInitData env.tgQueryId env.queryParam = "" →
      (bootstrap env ui0).outcome = .completed ∧
      (bootstrap env ui0).calls = [Endpoint.configDoc] ∧
      (bootstrap env ui0).ui.actionsHidden = true ∧
      (bootstrap env ui0).ui.paymentsHidden = true ∧
      (bootstrap env ui0).ui.devicesHidden = true ∧
      (bootstrap env ui0).ui.transactionsHidden = true ∧
      (bootstrap env ui0).ui.platformHidden = true ∧
      (bootstrap env ui0).ui.subscriptionMeta =
        "We could not detect Telegram init data. Open the Mini App from the bot so we can load your subscription." ∧
      (bootstrap env ui0).ui.statusBadgeText = "Not authorized" ∧
      (bootstrap env ui0).ui.badgeDanger = true := by
  intro env ui0 p hp htok
  have hb : bootstrap env ui0 =
      ⟨.completed,
       showInitError (applyConfig ((p.bind (·.config)).getD emptyConfig) ui0),
       [.configDoc]⟩ := by
    unfold bootstrap
    rw [hp]
    simp only [htok, if_pos]
  rw [hb]
  refine ⟨rfl, rfl, ?_, ?_, ?_, ?_, ?_, ?_, ?_, ?_⟩ <;> simp [showInitError]

/-- Claim C5 witness: the placeholder facts at a concrete token-less
environment with a non-JSON config body. -/
theorem bootstrap_no_token_spec_witness :
    (bootstrap demoEnvNoToken demoUi).calls = [Endpoint.configDoc] :=
  (bootstrap_no_token_spec demoEnvNoToken demoUi none rfl rfl).2.1

end Miniapp

